import Mathlib

/-!
Shallow embedding of the bugsnack error-reporting package (Go), covering
`bugsnag.go`: `BugsnagReporter.Report`, payload/event construction,
`formatStack`, `IsZeroInterface`, `MultiReporter.Report` and
`WriterReporter.Report`.

Modelling conventions:
* Go `error` interface values are modelled by `GoError`; every `GoError`
  models a non-nil Go error.  `errors.WithStack` from github.com/pkg/errors
  (an external dependency) always wraps its non-nil argument in a fresh
  `*errors.withStack` carrying the stack captured at the wrap site; the
  capture is environmental, so the captured frame list is an explicit
  parameter of the embedding.
* JSON-encodable Go values (`map[string]interface{}` literals) are modelled
  by the `JValue` tree; `json.Encoder.Encode` of the payloads built here is
  total, and `http.NewRequest` on the constant well-formed URL always
  succeeds, so those two error branches of `Report` are dead in the model.
* Go panics (failed type assertions, slicing out of range, calling a method
  on a nil interface) are modelled by the `Except.error` branch of the
  functions that can raise them; `Except.ok` is a normal return.
* Mutation of the caller-owned `*BugsnagMetadata` is modelled by explicit
  state passing: `ReportOutcome.metadataAfter` is the value the caller's
  metadata object holds once `Report` returns.
* The transport capability `Doer.Do` and the drain/close of the response
  body are environmental; their outcome for the single request a `Report`
  call makes is the explicit `DoOutcome` parameter.
-/

/-- Opaque cancellation context (`context.Context`); the code only threads
it through unchanged, so an identifier suffices. -/
abbrev Ctx := Nat

/-- One stack frame as rendered by pkg/errors `Frame` formatting verbs:
`%n` (function name), `%s` (source file) and `%d` (line). -/
structure Frame where
  method : String
  file : String
  line : Nat
deriving Repr, DecidableEq

/-- Model of a non-nil Go `error` value.  `base t m` is an unwrapped error
whose dynamic type prints as `t` and whose `Error()` is `m`;
`withStack s e` is the pkg/errors `*errors.withStack` wrapper holding the
frames `s` captured at its wrap site around inner error `e`. -/
inductive GoError where
  | base (typeName : String) (msg : String)
  | withStack (stack : List Frame) (inner : GoError)
deriving Repr, DecidableEq

/-- Go `err.Error()`: `*errors.withStack` delegates to its inner error. -/
def GoError.Error : GoError → String
  | .base _ msg => msg
  | .withStack _ inner => inner.Error

/-- Go `reflect.TypeOf(err).String()` on the dynamic type of the value:
a `*errors.withStack` wrapper always prints as that type. -/
def GoError.typeName : GoError → String
  | .base t _ => t
  | .withStack _ _ => "*errors.withStack"

/-- The `stackTracer` capability: `err.(stackTracer).StackTrace()`.
`none` models an error that does not implement `StackTrace`, on which the
type assertion in `newEvent` panics. -/
def GoError.stackTrace : GoError → Option (List Frame)
  | .base _ _ => none
  | .withStack s _ => some s

/-- JSON-encodable value tree, modelling the `map[string]interface{}`
payload literals of `bugsnag.go`.  Object fields keep insertion order. -/
inductive JValue where
  | str (s : String)
  | num (n : Int)
  | arr (elems : List JValue)
  | obj (fields : List (String × JValue))
deriving Repr

/-- Field lookup in an object value (Go map indexing). -/
def JValue.lookup : JValue → String → Option JValue
  | .obj fields, key => (fields.find? fun p => p.fst == key).map Prod.snd
  | _, _ => none

/-- The `EventMetadata` map type `map[string]interface{}`. -/
abbrev EventMap := List (String × JValue)

/-- The `BugsnagMetadata` struct.  `EventMetadata` is a Go pointer
`*map[string]interface{}`: `none` is the nil pointer, `some m` a non-nil
pointer to the map `m` (possibly empty). -/
structure BugsnagMetadata where
  ErrorClass : String
  Context : String
  GroupingHash : String
  Severity : String
  EventMetadata : Option EventMap
deriving Repr

/-- The Go zero value `BugsnagMetadata{}` used when no metadata argument is
supplied. -/
def emptyBugsnagMetadata : BugsnagMetadata :=
  { ErrorClass := "", Context := "", GroupingHash := "", Severity := ""
    EventMetadata := none }

/-- `populateMetadata`: fills `ErrorClass` with
`reflect.TypeOf(err).String()` when empty and `Severity` with `"error"`
when empty, through the metadata pointer (modelled by returning the new
state of the pointed-to struct). -/
def populateMetadata (metadata : BugsnagMetadata) (err : GoError) :
    BugsnagMetadata :=
  let m1 := if metadata.ErrorClass = "" then
    { metadata with ErrorClass := err.typeName } else metadata
  if m1.Severity = "" then { m1 with Severity := "error" } else m1

/-- `IsZeroInterface`, specialised to the pointer type
`*map[string]interface{}` of its only call site: an interface value equals
the zero of its dynamic type exactly when the pointer is nil; a non-nil
pointer, even to an empty map, is not zero. -/
def IsZeroInterface (i : Option EventMap) : Bool :=
  i.isNone

/-- `formatStack`: one `{method, file, lineNumber}` map per frame, in
order.  `strconv.Atoi(fmt.Sprintf("%d", f))` round-trips the line number. -/
def formatStack (s : List Frame) : List JValue :=
  s.map fun f =>
    JValue.obj [("method", .str f.method), ("file", .str f.file),
                ("lineNumber", .num (Int.ofNat f.line))]

/-- The `clientVersion` constant. -/
def clientVersion : String := "0.0.3"

/-- The `BugsnagReporter` struct.  The `Doer` transport is environmental
(its outcome is passed to `Report` explicitly) and `hasBackup` records
whether the `Backup` field holds a non-nil `ErrorReporter`; invoking
`Report` on a nil `Backup` interface panics. -/
structure BugsnagReporter where
  APIKey : String
  ReleaseStage : String
  hasBackup : Bool

/-- `newEvent`: the per-event map.  Panics (models as `.error`) when the
error does not implement `stackTracer` or when `StackTrace()` is empty, as
`[1:]` slicing then faults; otherwise drops the first (wrapping) frame and
builds the event, appending `groupingHash`, `context` and `metaData` only
when non-empty / non-zero. -/
def newEvent (er : BugsnagReporter) (host : String) (err : GoError)
    (metadata : BugsnagMetadata) : Except String JValue :=
  match err.stackTrace with
  | none => .error "panic: interface conversion: error is not stackTracer"
  | some [] => .error "panic: runtime error: slice bounds out of range"
  | some (_ :: stacktrace) =>
    let base : List (String × JValue) :=
      [("PayloadVersion", .str "2"),
       ("exceptions", .arr
         [.obj [("errorClass", .str metadata.ErrorClass),
                ("message", .str err.Error),
                ("stacktrace", .arr (formatStack stacktrace))]]),
       ("severity", .str metadata.Severity),
       ("app", .obj [("releaseStage", .str er.ReleaseStage)]),
       ("device", .obj [("hostname", .str host)])]
    let base := if metadata.GroupingHash ≠ "" then
      base ++ [("groupingHash", .str metadata.GroupingHash)] else base
    let base := if metadata.Context ≠ "" then
      base ++ [("context", .str metadata.Context)] else base
    let base := if ¬ IsZeroInterface metadata.EventMetadata then
      base ++ [("metaData",
        .obj (metadata.EventMetadata.getD []))] else base
    .ok (.obj base)

/-- `newPayload`: populates the metadata through its pointer, then wraps
the single event under the fixed top-level envelope.  Returns the payload
together with the post-call state of the metadata struct. -/
def newPayload (er : BugsnagReporter) (err : GoError)
    (metadata : BugsnagMetadata) (host : String) :
    Except String (JValue × BugsnagMetadata) :=
  let metadata := populateMetadata metadata err
  (newEvent er host err metadata).map fun ev =>
    (.obj [("apiKey", .str er.APIKey),
           ("notifier", .obj
             [("name", .str "Bugsnack/Bugsnag"),
              ("url", .str "https://github.com/fromatob/bugsnack"),
              ("version", .str clientVersion)]),
           ("events", .arr [ev])], metadata)

/-- A variadic `...interface{}` argument to `Report`: either a (non-nil)
`*BugsnagMetadata`, or a value of some other dynamic type, on which the
type assertion `meta[0].(*BugsnagMetadata)` panics. -/
inductive GoValue where
  | metadata (m : BugsnagMetadata)
  | other (typeName : String)
deriving Repr

/-- The resolution of the `meta` variadic slice at the top of
`BugsnagReporter.Report`: empty slice keeps the fresh zero metadata, a
leading `*BugsnagMetadata` replaces it, anything else panics. -/
def metaArg : List GoValue → Except String BugsnagMetadata
  | [] => .ok emptyBugsnagMetadata
  | .metadata m :: _ => .ok m
  | .other t :: _ =>
    .error ("panic: interface conversion: interface is " ++ t)

/-- Outcome of the single `er.Doer.Do(req)` call a report makes: either the
transport returns a non-nil error `e`, or a response with the given status
code whose body drain and close steps yield the given optional errors. -/
inductive DoOutcome where
  | doErr (e : GoError)
  | doResp (status : Nat) (drainErr : Option GoError)
      (closeErr : Option GoError)

/-- The generic delivery-failure error built by
`errors.New("could not report to bugsnag")` (pkg/errors `*errors.fundamental`). -/
def couldNotReport : GoError :=
  .base "*errors.fundamental" "could not report to bugsnag"

/-- Hands a batch of failure errors to `er.Backup.Report` in order; calling
through a nil backup interface panics on the first needed call. -/
def backupReport (er : BugsnagReporter) (es : List GoError) :
    Except String (List GoError) :=
  match es with
  | [] => .ok []
  | _ :: _ =>
    if er.hasBackup then .ok es
    else .error "panic: runtime error: invalid memory address"

/-- Everything observable about one completed `BugsnagReporter.Report`
call: the payload it built, whether the request reached the sink (the
transport returned a response), the errors handed to the backup reporter in
order, and the state of the caller-owned metadata struct after the call. -/
structure ReportOutcome where
  payload : JValue
  delivered : Bool
  backupErrs : List GoError
  metadataAfter : BugsnagMetadata

/-- `BugsnagReporter.Report`.  Wraps the error with the stack captured at
the wrap site (`callers`), resolves the variadic metadata, builds and
serialises the payload, performs the transport call, drains and closes the
response body (deferred, so it runs after the status check) and routes
every failure to the backup reporter.  `.error` models a panic escaping the
call. -/
def BugsnagReporter.Report (er : BugsnagReporter) (callers : List Frame)
    (host : String) (outcome : DoOutcome) (ctx : Ctx) (newErr : GoError)
    (meta : List GoValue) : Except String ReportOutcome :=
  let wrapped := GoError.withStack callers newErr
  match metaArg meta with
  | .error s => .error s
  | .ok m0 =>
    match newPayload er wrapped m0 host with
    | .error s => .error s
    | .ok (payload, metadata) =>
      match outcome with
      | .doErr e =>
        match backupReport er [e] with
        | .error s => .error s
        | .ok calls =>
          .ok { payload := payload, delivered := false,
                backupErrs := calls, metadataAfter := metadata }
      | .doResp status drainErr closeErr =>
        let statusErrs := if status ≠ 200 then [couldNotReport] else []
        let deferErrs := drainErr.toList ++ closeErr.toList
        match backupReport er (statusErrs ++ deferErrs) with
        | .error s => .error s
        | .ok calls =>
          .ok { payload := payload, delivered := true,
                backupErrs := calls, metadataAfter := metadata }

/-- One recorded sub-invocation of an `ErrorReporter`. -/
structure Call where
  reporter : Nat
  ctx : Ctx
  err : GoError
  meta : List GoValue
deriving Repr

/-- The `MultiReporter` struct; registered reporters are identified
abstractly. -/
structure MultiReporter where
  Reporters : List Nat

/-- `MultiReporter.Report`: spawns one goroutine per registered reporter,
each calling `er.Report(ctx, err)` with no metadata forwarded, and waits on
the barrier for all of them; the returned trace is the complete multiset of
sub-invocations performed before the call returns. -/
def MultiReporter.Report (mr : MultiReporter) (ctx : Ctx) (err : GoError)
    (metadata : List GoValue) : List Call :=
  mr.Reporters.map fun er => { reporter := er, ctx := ctx, err := err,
                               meta := [] }

/-- The `WriterReporter` struct; `hasWriter` records whether the `Writer`
field is non-nil. -/
structure WriterReporter where
  hasWriter : Bool

/-- `WriterReporter.Report`: returns the bytes written to the underlying
writer, `fmt.Fprintf(w, "%s\n", err)` rendering the error via `Error()`;
a nil writer writes nothing. -/
def WriterReporter.Report (wr : WriterReporter) (ctx : Ctx) (err : GoError)
    (metadata : List GoValue) : String :=
  if wr.hasWriter then err.Error ++ "\n" else ""

/-- Extracts the single event of a payload. -/
def payloadEvent (p : JValue) : Option JValue :=
  match p.lookup "events" with
  | some (.arr [ev]) => some ev
  | _ => none

/-- Extracts the single exception entry of an event. -/
def eventException (ev : JValue) : Option JValue :=
  match ev.lookup "exceptions" with
  | some (.arr [ex]) => some ex
  | _ => none

/-- The `errorClass` string carried by a payload's single exception. -/
def payloadErrorClass (p : JValue) : Option String :=
  match (payloadEvent p).bind eventException with
  | some ex =>
    match ex.lookup "errorClass" with
    | some (.str s) => some s
    | _ => none
  | _ => none

/-- The formatted stacktrace entries of a payload's single exception. -/
def payloadStacktrace (p : JValue) : Option (List JValue) :=
  match (payloadEvent p).bind eventException with
  | some ex =>
    match ex.lookup "stacktrace" with
    | some (.arr xs) => some xs
    | _ => none
  | _ => none

/-! ### Helper lemmas -/

theorem newEvent_ok_of_stack (er : BugsnagReporter) (host : String)
    (e : GoError) (m : BugsnagMetadata) (f : Frame) (rest : List Frame)
    (hst : e.stackTrace = some (f :: rest)) :
    ∃ ev, newEvent er host e m = .ok ev := by
  unfold newEvent
  rw [hst]
  exact ⟨_, rfl⟩

theorem newEvent_exceptions (er : BugsnagReporter) (host : String)
    (e : GoError) (m : BugsnagMetadata) (ev : JValue) (f : Frame)
    (rest : List Frame) (hst : e.stackTrace = some (f :: rest))
    (h : newEvent er host e m = .ok ev) :
    eventException ev = some (.obj
      [("errorClass", .str m.ErrorClass),
       ("message", .str e.Error),
       ("stacktrace", .arr (formatStack rest))]) := by
  unfold newEvent at h
  rw [hst] at h
  injection h with h
  subst h
  split_ifs <;> rfl

theorem newEvent_metaData (er : BugsnagReporter) (host : String)
    (e : GoError) (m : BugsnagMetadata) (ev : JValue) (f : Frame)
    (rest : List Frame) (hst : e.stackTrace = some (f :: rest))
    (h : newEvent er host e m = .ok ev) :
    ev.lookup "metaData" = m.EventMetadata.map (fun em => JValue.obj em) := by
  unfold newEvent at h
  rw [hst] at h
  injection h with h
  subst h
  cases hem : m.EventMetadata with
  | none =>
    simp only [hem, IsZeroInterface, Option.isNone_none, not_true_eq_false,
      if_false, Option.map_none']
    split_ifs <;> rfl
  | some em =>
    simp only [hem, IsZeroInterface, Option.isNone_some, not_false_eq_true,
      if_true, Option.map_some', Option.getD_some]
    split_ifs <;> first | rfl | simp_all

theorem backupReport_ok (er : BugsnagReporter) (hb : er.hasBackup = true)
    (es : List GoError) : backupReport er es = .ok es := by
  cases es with
  | nil => rfl
  | cons a l => simp [backupReport, hb]

theorem report_total (er : BugsnagReporter) (f : Frame) (rest : List Frame)
    (host : String) (outcome : DoOutcome) (ctx : Ctx) (e : GoError)
    (meta : List GoValue) (m : BugsnagMetadata)
    (hm : metaArg meta = .ok m) (hb : er.hasBackup = true) :
    ∃ ev r,
      newEvent er host (GoError.withStack (f :: rest) e)
        (populateMetadata m (GoError.withStack (f :: rest) e)) = .ok ev ∧
      BugsnagReporter.Report er (f :: rest) host outcome ctx e meta = .ok r ∧
      r.payload = JValue.obj
        [("apiKey", .str er.APIKey),
         ("notifier", .obj
           [("name", .str "Bugsnack/Bugsnag"),
            ("url", .str "https://github.com/fromatob/bugsnack"),
            ("version", .str clientVersion)]),
         ("events", .arr [ev])] ∧
      r.metadataAfter = populateMetadata m (GoError.withStack (f :: rest) e) ∧
      r.delivered = (match outcome with
        | .doErr _ => false
        | .doResp _ _ _ => true) ∧
      r.backupErrs = (match outcome with
        | .doErr te => [te]
        | .doResp status dE cE =>
          (if status ≠ 200 then [couldNotReport] else []) ++
            (dE.toList ++ cE.toList)) := by
  obtain ⟨ev, hev⟩ := newEvent_ok_of_stack er host
    (GoError.withStack (f :: rest) e)
    (populateMetadata m (GoError.withStack (f :: rest) e)) f rest rfl
  have hnp : newPayload er (GoError.withStack (f :: rest) e) m host =
      .ok (JValue.obj
        [("apiKey", .str er.APIKey),
         ("notifier", .obj
           [("name", .str "Bugsnack/Bugsnag"),
            ("url", .str "https://github.com/fromatob/bugsnack"),
            ("version", .str clientVersion)]),
         ("events", .arr [ev])],
        populateMetadata m (GoError.withStack (f :: rest) e)) := by
    simp only [newPayload, hev, Except.map]
  cases outcome with
  | doErr te =>
    refine ⟨ev, ⟨JValue.obj
        [("apiKey", .str er.APIKey),
         ("notifier", .obj
           [("name", .str "Bugsnack/Bugsnag"),
            ("url", .str "https://github.com/fromatob/bugsnack"),
            ("version", .str clientVersion)]),
         ("events", .arr [ev])], false, [te],
        populateMetadata m (GoError.withStack (f :: rest) e)⟩,
      hev, ?_, rfl, rfl, rfl, rfl⟩
    simp only [BugsnagReporter.Report, hm, hnp, backupReport_ok er hb]
  | doResp status dE cE =>
    refine ⟨ev, ⟨JValue.obj
        [("apiKey", .str er.APIKey),
         ("notifier", .obj
           [("name", .str "Bugsnack/Bugsnag"),
            ("url", .str "https://github.com/fromatob/bugsnack"),
            ("version", .str clientVersion)]),
         ("events", .arr [ev])], true,
        (if status ≠ 200 then [couldNotReport] else []) ++
          (dE.toList ++ cE.toList),
        populateMetadata m (GoError.withStack (f :: rest) e)⟩,
      hev, ?_, rfl, rfl, rfl, rfl⟩
    simp only [BugsnagReporter.Report, hm, hnp, backupReport_ok er hb]

theorem populateMetadata_fields (m : BugsnagMetadata) (err : GoError) :
    (populateMetadata m err).ErrorClass =
      (if m.ErrorClass = "" then err.typeName else m.ErrorClass) ∧
    (populateMetadata m err).Severity =
      (if m.Severity = "" then "error" else m.Severity) ∧
    (populateMetadata m err).Context = m.Context ∧
    (populateMetadata m err).GroupingHash = m.GroupingHash ∧
    (populateMetadata m err).EventMetadata = m.EventMetadata := by
  unfold populateMetadata
  split_ifs <;> simp_all

theorem payloadErrorClass_env (er : BugsnagReporter) (host : String)
    (e : GoError) (m : BugsnagMetadata) (ev : JValue) (f : Frame)
    (rest : List Frame) (hst : e.stackTrace = some (f :: rest))
    (hev : newEvent er host e m = .ok ev) :
    payloadErrorClass (JValue.obj
      [("apiKey", .str er.APIKey),
       ("notifier", .obj
         [("name", .str "Bugsnack/Bugsnag"),
          ("url", .str "https://github.com/fromatob/bugsnack"),
          ("version", .str clientVersion)]),
       ("events", .arr [ev])]) = some m.ErrorClass := by
  have hexc := newEvent_exceptions er host e m ev f rest hst hev
  unfold payloadErrorClass
  rw [show (payloadEvent (JValue.obj
      [("apiKey", .str er.APIKey),
       ("notifier", .obj
         [("name", .str "Bugsnack/Bugsnag"),
          ("url", .str "https://github.com/fromatob/bugsnack"),
          ("version", .str clientVersion)]),
       ("events", .arr [ev])])).bind eventException =
      some (JValue.obj
        [("errorClass", .str m.ErrorClass),
         ("message", .str e.Error),
         ("stacktrace", .arr (formatStack rest))]) from hexc]
  rfl

theorem payloadStacktrace_env (er : BugsnagReporter) (host : String)
    (e : GoError) (m : BugsnagMetadata) (ev : JValue) (f : Frame)
    (rest : List Frame) (hst : e.stackTrace = some (f :: rest))
    (hev : newEvent er host e m = .ok ev) :
    payloadStacktrace (JValue.obj
      [("apiKey", .str er.APIKey),
       ("notifier", .obj
         [("name", .str "Bugsnack/Bugsnag"),
          ("url", .str "https://github.com/fromatob/bugsnack"),
          ("version", .str clientVersion)]),
       ("events", .arr [ev])]) = some (formatStack rest) := by
  have hexc := newEvent_exceptions er host e m ev f rest hst hev
  unfold payloadStacktrace
  rw [show (payloadEvent (JValue.obj
      [("apiKey", .str er.APIKey),
       ("notifier", .obj
         [("name", .str "Bugsnack/Bugsnag"),
          ("url", .str "https://github.com/fromatob/bugsnack"),
          ("version", .str clientVersion)]),
       ("events", .arr [ev])])).bind eventException =
      some (JValue.obj
        [("errorClass", .str m.ErrorClass),
         ("message", .str e.Error),
         ("stacktrace", .arr (formatStack rest))]) from hexc]
  rfl

/-! ### Claims -/

/-- C1 counterexample: a `Report` call whose metadata argument is not a
`*BugsnagMetadata` (here a `string`) panics on the type assertion
`meta[0].(*BugsnagMetadata)` instead of completing, so `Report` does not
complete for every metadata argument. -/
theorem C1_counterexample :
    BugsnagReporter.Report ⟨"key", "production", true⟩
      [⟨"main.main", "main.go", 10⟩] "host" (.doResp 200 none none) 0
      (GoError.base "*errors.errorString" "boom") [GoValue.other "string"] =
    .error "panic: interface conversion: interface is string" := rfl

/-- C1 (amended): provided the leading variadic argument, when present, is
a `*BugsnagMetadata`, the reporter's `Backup` is non-nil and the captured
wrap-site stack is non-empty, every `BugsnagReporter.Report` call completes
normally for every context, error, transport outcome and metadata; all
delivery failures are resolved internally. -/
theorem C1_report_completes (er : BugsnagReporter) (f : Frame)
    (rest : List Frame) (host : String) (outcome : DoOutcome) (ctx : Ctx)
    (e : GoError) (meta : List GoValue) (m : BugsnagMetadata)
    (hm : metaArg meta = .ok m) (hb : er.hasBackup = true) :
    ∃ r, BugsnagReporter.Report er (f :: rest) host outcome ctx e meta =
      .ok r := by
  obtain ⟨ev, r, _, hr, _⟩ :=
    report_total er f rest host outcome ctx e meta m hm hb
  exact ⟨r, hr⟩

/-- C1 witness: a concrete completed call. -/
theorem C1_witness :
    ∃ r, BugsnagReporter.Report ⟨"key", "production", true⟩
      [⟨"main.main", "main.go", 10⟩, ⟨"runtime.main", "proc.go", 250⟩]
      "host" (.doResp 200 none none) 0
      (GoError.base "*errors.errorString" "boom") [] = .ok r :=
  C1_report_completes ⟨"key", "production", true⟩
    ⟨"main.main", "main.go", 10⟩ [⟨"runtime.main", "proc.go", 250⟩]
    "host" (.doResp 200 none none) 0
    (GoError.base "*errors.errorString" "boom") [] emptyBugsnagMetadata
    rfl rfl

/-- C2 counterexample: with empty `ErrorClass`, the payload's `errorClass`
is the type name of the wrapped error, `*errors.withStack`, which differs
from the runtime type name of the error the caller passed. -/
theorem C2_counterexample :
    ((BugsnagReporter.Report ⟨"key", "production", true⟩
        [⟨"main.main", "main.go", 10⟩, ⟨"runtime.main", "proc.go", 250⟩]
        "host" (.doResp 200 none none) 0
        (GoError.base "*errors.errorString" "boom")
        [GoValue.metadata emptyBugsnagMetadata]).toOption.map
      (fun r => payloadErrorClass r.payload)) =
      some (some "*errors.withStack") ∧
    GoError.typeName (GoError.base "*errors.errorString" "boom") =
      "*errors.errorString" ∧
    "*errors.withStack" ≠ "*errors.errorString" :=
  ⟨rfl, rfl, by decide⟩

/-- C2 (amended): for every error and every metadata with empty
`ErrorClass`, the payload built by a completed `Report` call carries
`errorClass` equal to the runtime type name of the wrapped error, which is
always `*errors.withStack`, not the type name of the caller's error. -/
theorem C2_errorClass (er : BugsnagReporter) (f : Frame) (rest : List Frame)
    (host : String) (outcome : DoOutcome) (ctx : Ctx) (e : GoError)
    (meta : List GoValue) (m : BugsnagMetadata)
    (hm : metaArg meta = .ok m) (hEC : m.ErrorClass = "")
    (hb : er.hasBackup = true) :
    ∃ r, BugsnagReporter.Report er (f :: rest) host outcome ctx e meta =
        .ok r ∧
      payloadErrorClass r.payload = some "*errors.withStack" := by
  obtain ⟨ev, r, hev, hr, hp, _⟩ :=
    report_total er f rest host outcome ctx e meta m hm hb
  refine ⟨r, hr, ?_⟩
  rw [hp, payloadErrorClass_env er host (GoError.withStack (f :: rest) e)
    (populateMetadata m (GoError.withStack (f :: rest) e)) ev f rest rfl
    hev]
  rw [(populateMetadata_fields m (GoError.withStack (f :: rest) e)).1]
  simp [hEC, GoError.typeName]

/-- C2 witness: a concrete call with empty `ErrorClass`. -/
theorem C2_witness :
    ∃ r, BugsnagReporter.Report ⟨"key", "production", true⟩
        [⟨"main.main", "main.go", 10⟩, ⟨"runtime.main", "proc.go", 250⟩]
        "host" (.doErr (GoError.base "*net.OpError" "refused")) 0
        (GoError.base "*errors.errorString" "boom")
        [GoValue.metadata emptyBugsnagMetadata] = .ok r ∧
      payloadErrorClass r.payload = some "*errors.withStack" :=
  C2_errorClass ⟨"key", "production", true⟩ ⟨"main.main", "main.go", 10⟩
    [⟨"runtime.main", "proc.go", 250⟩] "host"
    (.doErr (GoError.base "*net.OpError" "refused")) 0
    (GoError.base "*errors.errorString" "boom")
    [GoValue.metadata emptyBugsnagMetadata] emptyBugsnagMetadata rfl rfl
    rfl

/-- C3 counterexample: `errors.WithStack` wrapping is not idempotent with
respect to the stack trace: re-wrapping an error that already carries a
stack trace replaces the trace with the one captured at the new wrap
site. -/
theorem C3_counterexample :
    GoError.stackTrace
        (GoError.withStack [⟨"reporter.Report", "bugsnag.go", 47⟩]
          (GoError.withStack [⟨"caller.work", "caller.go", 5⟩]
            (GoError.base "*errors.errorString" "boom"))) ≠
      GoError.stackTrace
        (GoError.withStack [⟨"caller.work", "caller.go", 5⟩]
          (GoError.base "*errors.errorString" "boom")) := by
  decide

/-- C3 (amended): step 1 of `Report` wraps the error so it always carries
a stack trace, namely the one captured at the wrap site inside `Report`;
for every incoming error, including one already carrying a stack trace,
the stack trace used in the payload is the freshly captured one (first
frame dropped), not any previously attached one. -/
theorem C3_wrap_stack (er : BugsnagReporter) (f : Frame) (rest : List Frame)
    (host : String) (outcome : DoOutcome) (ctx : Ctx) (e : GoError)
    (meta : List GoValue) (m : BugsnagMetadata)
    (hm : metaArg meta = .ok m) (hb : er.hasBackup = true) :
    (GoError.withStack (f :: rest) e).stackTrace = some (f :: rest) ∧
    ∃ r, BugsnagReporter.Report er (f :: rest) host outcome ctx e meta =
        .ok r ∧
      payloadStacktrace r.payload = some (formatStack rest) := by
  obtain ⟨ev, r, hev, hr, hp, _⟩ :=
    report_total er f rest host outcome ctx e meta m hm hb
  refine ⟨rfl, r, hr, ?_⟩
  rw [hp, payloadStacktrace_env er host (GoError.withStack (f :: rest) e)
    (populateMetadata m (GoError.withStack (f :: rest) e)) ev f rest rfl
    hev]

/-- C3 witness: a concrete call on an error that already carries a stack
trace. -/
theorem C3_witness :
    (GoError.withStack
        [⟨"reporter.Report", "bugsnag.go", 47⟩, ⟨"main.main", "main.go", 9⟩]
        (GoError.withStack [⟨"caller.work", "caller.go", 5⟩]
          (GoError.base "*errors.errorString" "boom"))).stackTrace =
      some [⟨"reporter.Report", "bugsnag.go", 47⟩,
            ⟨"main.main", "main.go", 9⟩] ∧
    ∃ r, BugsnagReporter.Report ⟨"key", "production", true⟩
        [⟨"reporter.Report", "bugsnag.go", 47⟩, ⟨"main.main", "main.go", 9⟩]
        "host" (.doResp 200 none none) 0
        (GoError.withStack [⟨"caller.work", "caller.go", 5⟩]
          (GoError.base "*errors.errorString" "boom")) [] = .ok r ∧
      payloadStacktrace r.payload =
        some (formatStack [⟨"main.main", "main.go", 9⟩]) :=
  C3_wrap_stack ⟨"key", "production", true⟩
    ⟨"reporter.Report", "bugsnag.go", 47⟩ [⟨"main.main", "main.go", 9⟩]
    "host" (.doResp 200 none none) 0
    (GoError.withStack [⟨"caller.work", "caller.go", 5⟩]
      (GoError.base "*errors.errorString" "boom")) [] emptyBugsnagMetadata
    rfl rfl

/-- C4 counterexample: with `EventMetadata` a non-nil pointer to an empty
map (an empty `EventMetadata`), the constructed event still contains the
`metaData` key, because `IsZeroInterface` only detects the nil pointer. -/
theorem C4_counterexample :
    ((newEvent ⟨"key", "production", true⟩ "host"
        (GoError.withStack
          [⟨"main.main", "main.go", 10⟩, ⟨"runtime.main", "proc.go", 250⟩]
          (GoError.base "*errors.errorString" "boom"))
        { ErrorClass := "class", Context := "", GroupingHash := "",
          Severity := "error", EventMetadata := some [] }).toOption.bind
      (fun ev => ev.lookup "metaData")).isSome = true := rfl

/-- C4 (amended): the `metaData` key is omitted exactly when
`EventMetadata` is the zero value (nil pointer); for every non-nil
`EventMetadata` pointer, including one to an empty map, the event contains
`metaData` equal to the supplied mapping. -/
theorem C4_eventMetadata (er : BugsnagReporter) (host : String)
    (e : GoError) (m : BugsnagMetadata) (f : Frame) (rest : List Frame)
    (hst : e.stackTrace = some (f :: rest)) :
    ∃ ev, newEvent er host e m = .ok ev ∧
      (m.EventMetadata = none → ev.lookup "metaData" = none) ∧
      ∀ em, m.EventMetadata = some em →
        ev.lookup "metaData" = some (JValue.obj em) := by
  obtain ⟨ev, hev⟩ := newEvent_ok_of_stack er host e m f rest hst
  have hmd := newEvent_metaData er host e m ev f rest hst hev
  refine ⟨ev, hev, ?_, ?_⟩
  · intro h
    rw [hmd, h]
    rfl
  · intro em h
    rw [hmd, h]
    rfl

/-- C4 witness: a concrete event with a supplied non-empty mapping. -/
theorem C4_witness :
    ∃ ev, newEvent ⟨"key", "production", true⟩ "host"
        (GoError.withStack
          [⟨"main.main", "main.go", 10⟩, ⟨"runtime.main", "proc.go", 250⟩]
          (GoError.base "*errors.errorString" "boom"))
        { ErrorClass := "class", Context := "", GroupingHash := "",
          Severity := "error",
          EventMetadata := some [("os", JValue.str "linux")] } = .ok ev ∧
      ((some [("os", JValue.str "linux")] :
          Option EventMap) = none → ev.lookup "metaData" = none) ∧
      ∀ em, (some [("os", JValue.str "linux")] :
          Option EventMap) = some em →
        ev.lookup "metaData" = some (JValue.obj em) :=
  C4_eventMetadata ⟨"key", "production", true⟩ "host"
    (GoError.withStack
      [⟨"main.main", "main.go", 10⟩, ⟨"runtime.main", "proc.go", 250⟩]
      (GoError.base "*errors.errorString" "boom"))
    { ErrorClass := "class", Context := "", GroupingHash := "",
      Severity := "error",
      EventMetadata := some [("os", JValue.str "linux")] }
    ⟨"main.main", "main.go", 10⟩ [⟨"runtime.main", "proc.go", 250⟩] rfl

/-- C5: a `MultiReporter.Report` call produces exactly one sub-invocation
per registered reporter, in registration order, each with the same context
and error and with no metadata forwarded; the trace is complete when the
call returns (the wait barrier). -/
theorem C5_multi_fanout (mr : MultiReporter) (ctx : Ctx) (err : GoError)
    (metadata : List GoValue) :
    (MultiReporter.Report mr ctx err metadata).length =
      mr.Reporters.length ∧
    ∀ (i rep : Nat), mr.Reporters[i]? = some rep →
      (MultiReporter.Report mr ctx err metadata)[i]? =
        some (Call.mk rep ctx err []) := by
  refine ⟨by simp [MultiReporter.Report], ?_⟩
  intro i rep h
  simp [MultiReporter.Report, h]

/-- C5 witness: three registered reporters, metadata supplied by the
caller, second reporter's invocation. -/
theorem C5_witness :
    (MultiReporter.Report ⟨[7, 8, 9]⟩ 3 (GoError.base "*net.OpError" "x")
        [GoValue.other "int"])[1]? =
      some (Call.mk 8 3 (GoError.base "*net.OpError" "x") []) :=
  (C5_multi_fanout ⟨[7, 8, 9]⟩ 3 (GoError.base "*net.OpError" "x")
    [GoValue.other "int"]).2 1 8 rfl

/-- C6: when the transport `Do` call returns an error, the backup reporter
receives exactly that one (non-nil) error and nothing is delivered to the
sink. -/
theorem C6_transport_failure (er : BugsnagReporter) (f : Frame)
    (rest : List Frame) (host : String) (ctx : Ctx) (e te : GoError)
    (meta : List GoValue) (m : BugsnagMetadata)
    (hm : metaArg meta = .ok m) (hb : er.hasBackup = true) :
    ∃ r, BugsnagReporter.Report er (f :: rest) host (.doErr te) ctx e
        meta = .ok r ∧
      r.backupErrs = [te] ∧ r.delivered = false := by
  obtain ⟨ev, r, _, hr, _, _, hd, hbk⟩ :=
    report_total er f rest host (.doErr te) ctx e meta m hm hb
  exact ⟨r, hr, hbk, hd⟩

/-- C6 witness: a concrete failing transport. -/
theorem C6_witness :
    ∃ r, BugsnagReporter.Report ⟨"key", "production", true⟩
        [⟨"main.main", "main.go", 10⟩, ⟨"runtime.main", "proc.go", 250⟩]
        "host" (.doErr (GoError.base "*net.OpError" "connection refused"))
        0 (GoError.base "*errors.errorString" "boom") [] = .ok r ∧
      r.backupErrs = [GoError.base "*net.OpError" "connection refused"] ∧
      r.delivered = false :=
  C6_transport_failure ⟨"key", "production", true⟩
    ⟨"main.main", "main.go", 10⟩ [⟨"runtime.main", "proc.go", 250⟩] "host"
    0 (GoError.base "*errors.errorString" "boom")
    (GoError.base "*net.OpError" "connection refused") []
    emptyBugsnagMetadata rfl rfl

/-- C7: on a non-200 response the backup receives the generic
`could not report to bugsnag` error first (before the deferred drain/close
errors, if any) and the call completes; on a 200 response no backup call is
made for the status check, only drain/close failures reach the backup. -/
theorem C7_status_handling (er : BugsnagReporter) (f : Frame)
    (rest : List Frame) (host : String) (ctx : Ctx) (e : GoError)
    (status : Nat) (dE cE : Option GoError) (meta : List GoValue)
    (m : BugsnagMetadata) (hm : metaArg meta = .ok m)
    (hb : er.hasBackup = true) :
    ∃ r, BugsnagReporter.Report er (f :: rest) host
        (.doResp status dE cE) ctx e meta = .ok r ∧
      (status ≠ 200 →
        r.backupErrs = couldNotReport :: (dE.toList ++ cE.toList)) ∧
      (status = 200 → r.backupErrs = dE.toList ++ cE.toList) := by
  obtain ⟨ev, r, _, hr, _, _, _, hbk⟩ :=
    report_total er f rest host (.doResp status dE cE) ctx e meta m hm hb
  refine ⟨r, hr, ?_, ?_⟩ <;> intro h <;> simp_all

/-- C7 witness: a concrete 500 response with a drain error. -/
theorem C7_witness :
    ∃ r, BugsnagReporter.Report ⟨"key", "production", true⟩
        [⟨"main.main", "main.go", 10⟩, ⟨"runtime.main", "proc.go", 250⟩]
        "host" (.doResp 500 (some (GoError.base "*errors.errorString"
          "read failed")) none) 0
        (GoError.base "*errors.errorString" "boom") [] = .ok r ∧
      ((500 : Nat) ≠ 200 →
        r.backupErrs = couldNotReport ::
          ((some (GoError.base "*errors.errorString"
            "read failed")).toList ++ (none : Option GoError).toList)) ∧
      ((500 : Nat) = 200 →
        r.backupErrs = (some (GoError.base "*errors.errorString"
          "read failed")).toList ++ (none : Option GoError).toList) :=
  C7_status_handling ⟨"key", "production", true⟩
    ⟨"main.main", "main.go", 10⟩ [⟨"runtime.main", "proc.go", 250⟩] "host"
    0 (GoError.base "*errors.errorString" "boom") 500
    (some (GoError.base "*errors.errorString" "read failed")) none []
    emptyBugsnagMetadata rfl rfl

/-- C8: for a captured stack of `n` frames (`n ≥ 1`), the payload's
formatted stacktrace drops the first (wrapping) frame, has length `n - 1`,
preserves the relative order of the remaining frames, and renders each as
a `{method, file, lineNumber}` mapping. -/
theorem C8_stack_format (er : BugsnagReporter) (f : Frame)
    (rest : List Frame) (host : String) (outcome : DoOutcome) (ctx : Ctx)
    (e : GoError) (meta : List GoValue) (m : BugsnagMetadata)
    (hm : metaArg meta = .ok m) (hb : er.hasBackup = true) :
    ∃ r, BugsnagReporter.Report er (f :: rest) host outcome ctx e meta =
        .ok r ∧
      payloadStacktrace r.payload = some (formatStack rest) ∧
      (formatStack rest).length = (f :: rest).length - 1 ∧
      ∀ (i : Nat) (fr : Frame), rest[i]? = some fr →
        (formatStack rest)[i]? = some (JValue.obj
          [("method", .str fr.method), ("file", .str fr.file),
           ("lineNumber", .num (Int.ofNat fr.line))]) := by
  obtain ⟨ev, r, hev, hr, hp, _⟩ :=
    report_total er f rest host outcome ctx e meta m hm hb
  refine ⟨r, hr, ?_, by simp [formatStack], ?_⟩
  · rw [hp, payloadStacktrace_env er host (GoError.withStack (f :: rest) e)
      (populateMetadata m (GoError.withStack (f :: rest) e)) ev f rest rfl
      hev]
  · intro i fr h
    simp [formatStack, h]

/-- C8 witness: three captured frames, two emitted entries in capture
order. -/
theorem C8_witness :
    ∃ r, BugsnagReporter.Report ⟨"key", "production", true⟩
        [⟨"errors.WithStack", "errors.go", 300⟩,
         ⟨"reporter.Report", "bugsnag.go", 47⟩,
         ⟨"main.main", "main.go", 12⟩] "host" (.doResp 200 none none) 0
        (GoError.base "*errors.errorString" "boom") [] = .ok r ∧
      payloadStacktrace r.payload = some (formatStack
        [⟨"reporter.Report", "bugsnag.go", 47⟩,
         ⟨"main.main", "main.go", 12⟩]) ∧
      (formatStack [⟨"reporter.Report", "bugsnag.go", 47⟩,
        ⟨"main.main", "main.go", 12⟩]).length =
        ([⟨"errors.WithStack", "errors.go", 300⟩,
          ⟨"reporter.Report", "bugsnag.go", 47⟩,
          ⟨"main.main", "main.go", 12⟩] : List Frame).length - 1 ∧
      ∀ (i : Nat) (fr : Frame),
        ([⟨"reporter.Report", "bugsnag.go", 47⟩,
          ⟨"main.main", "main.go", 12⟩] : List Frame)[i]? = some fr →
        (formatStack [⟨"reporter.Report", "bugsnag.go", 47⟩,
          ⟨"main.main", "main.go", 12⟩])[i]? = some (JValue.obj
            [("method", .str fr.method), ("file", .str fr.file),
             ("lineNumber", .num (Int.ofNat fr.line))]) :=
  C8_stack_format ⟨"key", "production", true⟩
    ⟨"errors.WithStack", "errors.go", 300⟩
    [⟨"reporter.Report", "bugsnag.go", 47⟩, ⟨"main.main", "main.go", 12⟩]
    "host" (.doResp 200 none none) 0
    (GoError.base "*errors.errorString" "boom") [] emptyBugsnagMetadata
    rfl rfl

/-- C9: `WriterReporter.Report` with a configured writer writes exactly
the error's `Error()` text followed by one newline; with a nil writer it
writes nothing, and in both cases it completes without failing. -/
theorem C9_writer_reporter (wr : WriterReporter) (ctx : Ctx)
    (err : GoError) (metadata : List GoValue) :
    (wr.hasWriter = true →
      WriterReporter.Report wr ctx err metadata = err.Error ++ "\n") ∧
    (wr.hasWriter = false →
      WriterReporter.Report wr ctx err metadata = "") := by
  constructor <;> intro h <;> simp [WriterReporter.Report, h]

/-- C9 witness: a concrete configured writer. -/
theorem C9_witness :
    WriterReporter.Report ⟨true⟩ 0
      (GoError.base "*errors.errorString" "boom") [] =
      (GoError.base "*errors.errorString" "boom").Error ++ "\n" :=
  (C9_writer_reporter ⟨true⟩ 0
    (GoError.base "*errors.errorString" "boom") []).1 rfl

/-- C10: a `Report` call that is handed a caller-owned `*BugsnagMetadata`
leaves that object, after the call, exactly equal to `populateMetadata`
applied in place: empty `ErrorClass` is filled with the wrapped error's
type name `*errors.withStack`, empty `Severity` with `error`, and all
other fields are untouched (no per-call copy is made). -/
theorem C10_metadata_inplace (er : BugsnagReporter) (f : Frame)
    (rest : List Frame) (host : String) (outcome : DoOutcome) (ctx : Ctx)
    (e : GoError) (m : BugsnagMetadata) (hb : er.hasBackup = true) :
    ∃ r, BugsnagReporter.Report er (f :: rest) host outcome ctx e
        [GoValue.metadata m] = .ok r ∧
      r.metadataAfter =
        populateMetadata m (GoError.withStack (f :: rest) e) ∧
      r.metadataAfter.ErrorClass =
        (if m.ErrorClass = "" then "*errors.withStack"
         else m.ErrorClass) ∧
      r.metadataAfter.Severity =
        (if m.Severity = "" then "error" else m.Severity) ∧
      r.metadataAfter.Context = m.Context ∧
      r.metadataAfter.GroupingHash = m.GroupingHash ∧
      r.metadataAfter.EventMetadata = m.EventMetadata := by
  obtain ⟨ev, r, _, hr, _, hmd, _, _⟩ := report_total er f rest host
    outcome ctx e [GoValue.metadata m] m rfl hb
  obtain ⟨h1, h2, h3, h4, h5⟩ :=
    populateMetadata_fields m (GoError.withStack (f :: rest) e)
  exact ⟨r, hr, hmd, hmd.symm ▸ h1, hmd.symm ▸ h2, hmd.symm ▸ h3,
    hmd.symm ▸ h4, hmd.symm ▸ h5⟩

/-- C10 witness: a concrete metadata with empty `ErrorClass` and
`Severity` and non-empty other fields. -/
theorem C10_witness :
    ∃ r, BugsnagReporter.Report ⟨"key", "production", true⟩
        [⟨"main.main", "main.go", 10⟩, ⟨"runtime.main", "proc.go", 250⟩]
        "host" (.doResp 200 none none) 0
        (GoError.base "*errors.errorString" "boom")
        [GoValue.metadata
          { ErrorClass := "", Context := "checkout",
            GroupingHash := "net.timeout", Severity := "",
            EventMetadata := some [("os", JValue.str "linux")] }] =
        .ok r ∧
      r.metadataAfter = populateMetadata
        { ErrorClass := "", Context := "checkout",
          GroupingHash := "net.timeout", Severity := "",
          EventMetadata := some [("os", JValue.str "linux")] }
        (GoError.withStack
          [⟨"main.main", "main.go", 10⟩, ⟨"runtime.main", "proc.go", 250⟩]
          (GoError.base "*errors.errorString" "boom")) ∧
      r.metadataAfter.ErrorClass =
        (if ("" : String) = "" then "*errors.withStack" else "") ∧
      r.metadataAfter.Severity =
        (if ("" : String) = "" then "error" else "") ∧
      r.metadataAfter.Context = "checkout" ∧
      r.metadataAfter.GroupingHash = "net.timeout" ∧
      r.metadataAfter.EventMetadata = some [("os", JValue.str "linux")] :=
  C10_metadata_inplace ⟨"key", "production", true⟩
    ⟨"main.main", "main.go", 10⟩ [⟨"runtime.main", "proc.go", 250⟩]
    "host" (.doResp 200 none none) 0
    (GoError.base "*errors.errorString" "boom")
    { ErrorClass := "", Context := "checkout",
      GroupingHash := "net.timeout", Severity := "",
      EventMetadata := some [("os", JValue.str "linux")] } rfl
